import Mathlib

/-!
Shallow embedding of the SaaS-RAG-chatbot frontend (Next.js/TypeScript) and
of the spec-modelled backend vector store.  Pure logic of the page handlers
is translated into Lean functions; browser/environment values (tokens,
Date.now identifiers, window.location, fetch outcomes) are passed as
explicit parameters.
-/

/-- JavaScript truthiness of an optional string field: `undefined` and the
empty string are falsy, any other string is truthy. -/
def jsTruthy : Option String → Bool
  | none => false
  | some s => !s.isEmpty

/-- Whether the first list starts with the second (character prefix test). -/
def startsWithL : List Char → List Char → Bool
  | _, [] => true
  | [], _ :: _ => false
  | a :: as, b :: bs => a == b && startsWithL as bs

/-- Whether `pat` occurs as a contiguous run inside `s`. -/
def containsSub (pat : List Char) : List Char → Bool
  | [] => pat.isEmpty
  | c :: rest => startsWithL (c :: rest) pat || containsSub pat rest

/-- JavaScript `String.prototype.includes`. -/
def strIncludes (s pat : String) : Bool :=
  containsSub pat.toList s.toList

/-- Whitespace as stripped by JavaScript `String.prototype.trim`. -/
def isJsSpace (c : Char) : Bool :=
  c == ' ' || c == '\t' || c == '\n' || c == '\r'

/-- JavaScript `String.prototype.trim`: strip leading and trailing
whitespace. -/
def jsTrim (s : String) : String :=
  String.mk (((s.toList.dropWhile isJsSpace).reverse.dropWhile isJsSpace).reverse)

/-- Splitting a path on a separator character, JavaScript
`String.prototype.split` semantics (an empty string yields `[""]`). -/
def splitCharAux (sep : Char) : List Char → List Char → List String
  | [], acc => [String.mk acc.reverse]
  | c :: rest, acc =>
      if c == sep then String.mk acc.reverse :: splitCharAux sep rest []
      else splitCharAux sep rest (c :: acc)

/-- JavaScript `path.split("/")` (single-character separator). -/
def splitChar (sep : Char) (s : String) : List String :=
  splitCharAux sep s.toList []

namespace Config

/-- Ambient browser environment of `lib/config.ts`: whether `window` exists
and the value of `window.location.hostname`. -/
structure BrowserEnv where
  isBrowser : Bool
  hostname : String
  deriving DecidableEq

/-- `isPreviewEnvironment` from `lib/config.ts`: false outside a browser,
otherwise whether the hostname includes vercel.app, localhost or 127.0.0.1. -/
def isPreviewEnvironment (env : BrowserEnv) : Bool :=
  if !env.isBrowser then false
  else
    strIncludes env.hostname "vercel.app" ||
    strIncludes env.hostname "localhost" ||
    strIncludes env.hostname "127.0.0.1"

/-- Outcome of the GET ping issued by `isApiReachable`: the response arrived
within the 3 second timeout with `response.ok`, arrived but not ok, or the
fetch rejected (network error or the timeout aborting the request). -/
inductive PingOutcome where
  | ok
  | notOk
  | failed
  deriving DecidableEq

/-- Result of `isApiReachable`: whether a network request was issued at all
and the boolean the function returns. -/
structure ReachableResult where
  requested : Bool
  result : Bool
  deriving DecidableEq

/-- `isApiReachable` from `lib/config.ts`.  Returns false with no request
outside a browser or in a preview environment; otherwise issues the GET and
returns `response.ok`, with every fetch error or abort caught and mapped to
false. -/
def isApiReachable (env : BrowserEnv) (outcome : PingOutcome) : ReachableResult :=
  if !env.isBrowser then ⟨false, false⟩
  else if isPreviewEnvironment env then ⟨false, false⟩
  else
    match outcome with
    | PingOutcome.ok => ⟨true, true⟩
    | PingOutcome.notOk => ⟨true, false⟩
    | PingOutcome.failed => ⟨true, false⟩

end Config

/-- Message role of the chat UI (`interface Message` in the chat pages). -/
inductive Role where
  | user
  | assistant
  deriving DecidableEq

/-- A rendered chat message.  The `timestamp` field of the source interface
is an environment value (`new Date().toISOString()`) and is omitted; `id`
is kept because the history replay derives it from the item index. -/
structure Message where
  id : String
  role : Role
  content : String
  deriving DecidableEq

/-- The JSON object shape probed by the response handling of `handleSubmit`:
the four optional string fields it checks, in source order. -/
structure ChatResponseObj where
  chatbot_answer : Option String
  response : Option String
  answer : Option String
  text : Option String
  deriving DecidableEq

/-- The parsed body of a successful `/chat` response: either a JSON object
(whose recognised fields are in `ChatResponseObj`) or a bare JSON string. -/
inductive ChatResponse where
  | obj : ChatResponseObj → ChatResponse
  | str : String → ChatResponse
  deriving DecidableEq

/-- The placeholder initialising `responseText` in both chat pages. -/
def fallbackAnswer : String := "I couldn\x27t find an answer to that question."

/-- The response-text extraction of `handleSubmit` (both chat pages):
`responseText` starts as the placeholder and is overwritten by the first
truthy field among `chatbot_answer`, `response`, `answer`, `text`, or by
the whole body when it is a string. -/
def extractResponseText : ChatResponse → String
  | ChatResponse.obj o =>
      if jsTruthy o.chatbot_answer then o.chatbot_answer.getD ""
      else if jsTruthy o.response then o.response.getD ""
      else if jsTruthy o.answer then o.answer.getD ""
      else if jsTruthy o.text then o.text.getD ""
      else fallbackAnswer
  | ChatResponse.str s => s

/-- The assistant message content appended by the `catch` block of
`handleSubmit` in both chat pages. -/
def errorApology : String := "Sorry, I encountered an error processing your request."

/-- The component state touched by `handleSubmit`: `messages`, `input`,
`isLoading`. -/
structure ChatState where
  messages : List Message
  input : String
  isLoading : Bool
  deriving DecidableEq

/-- Outcome of the `/chat` fetch: an ok response with a parsed body, a
non-ok response whose parsed error body optionally carries `detail`, or a
rejected fetch (an `Error` with optional message, `none` standing for a
thrown non-Error value). -/
inductive FetchResponse where
  | ok : ChatResponse → FetchResponse
  | httpError : Option String → FetchResponse
  | networkError : Option String → FetchResponse
  deriving DecidableEq

/-- Everything observable from one run of a chat `handleSubmit`: the final
component state, whether a network request was issued, the Authorization
header attached to it, the form-data payload sent, whether the router
redirected to /login, and the toast description if a toast was shown. -/
structure SubmitResult where
  messages : List Message
  input : String
  isLoading : Bool
  requested : Bool
  authHeader : Option String
  payload : Option (List (String × String))
  redirectedLogin : Bool
  toast : Option String
  deriving DecidableEq

namespace ChatPage

/-- `handleSubmit` of `app/dashboard/chat/[project]/page.tsx` (new
conversation).  `nowId` stands for `Date.now().toString()`; `token` for
`localStorage.getItem("token")`; `resp` for the fetch outcome (ignored when
no request is issued). -/
def handleSubmit (st : ChatState) (project : String) (nowId : String)
    (token : Option String) (resp : FetchResponse) : SubmitResult :=
  if (jsTrim st.input).isEmpty then
    { messages := st.messages, input := st.input, isLoading := st.isLoading,
      requested := false, authHeader := none, payload := none,
      redirectedLogin := false, toast := none }
  else
    let userMessage : Message := ⟨nowId, Role.user, st.input⟩
    let msgs := st.messages ++ [userMessage]
    match token with
    | none =>
        { messages := msgs, input := "", isLoading := false,
          requested := false, authHeader := none, payload := none,
          redirectedLogin := true, toast := none }
    | some t =>
        let auth := some ("Bearer " ++ t)
        let formData := [("user_query", st.input), ("project_name", project)]
        match resp with
        | FetchResponse.ok data =>
            { messages := msgs ++ [⟨nowId, Role.assistant, extractResponseText data⟩],
              input := "", isLoading := false, requested := true,
              authHeader := auth, payload := some formData,
              redirectedLogin := false, toast := none }
        | FetchResponse.httpError detail =>
            { messages := msgs ++ [⟨nowId, Role.assistant, errorApology⟩],
              input := "", isLoading := false, requested := true,
              authHeader := auth, payload := some formData,
              redirectedLogin := false,
              toast := some (if jsTruthy detail then detail.getD ""
                             else "Failed to get response") }
        | FetchResponse.networkError msg =>
            { messages := msgs ++ [⟨nowId, Role.assistant, errorApology⟩],
              input := "", isLoading := false, requested := true,
              authHeader := auth, payload := some formData,
              redirectedLogin := false,
              toast := some (msg.getD "Failed to get a response") }

end ChatPage

namespace ChatDetailPage

/-- `handleSubmit` of `app/dashboard/chat/[project]/[id]/page.tsx`
(continuing a conversation): identical to the new-conversation handler
except that the form data also carries the route `id` as `vector_id`. -/
def handleSubmit (st : ChatState) (project : String) (id : String) (nowId : String)
    (token : Option String) (resp : FetchResponse) : SubmitResult :=
  if (jsTrim st.input).isEmpty then
    { messages := st.messages, input := st.input, isLoading := st.isLoading,
      requested := false, authHeader := none, payload := none,
      redirectedLogin := false, toast := none }
  else
    let userMessage : Message := ⟨nowId, Role.user, st.input⟩
    let msgs := st.messages ++ [userMessage]
    match token with
    | none =>
        { messages := msgs, input := "", isLoading := false,
          requested := false, authHeader := none, payload := none,
          redirectedLogin := true, toast := none }
    | some t =>
        let auth := some ("Bearer " ++ t)
        let formData := [("user_query", st.input), ("project_name", project),
                         ("vector_id", id)]
        match resp with
        | FetchResponse.ok data =>
            { messages := msgs ++ [⟨nowId, Role.assistant, extractResponseText data⟩],
              input := "", isLoading := false, requested := true,
              authHeader := auth, payload := some formData,
              redirectedLogin := false, toast := none }
        | FetchResponse.httpError detail =>
            { messages := msgs ++ [⟨nowId, Role.assistant, errorApology⟩],
              input := "", isLoading := false, requested := true,
              authHeader := auth, payload := some formData,
              redirectedLogin := false,
              toast := some (if jsTruthy detail then detail.getD ""
                             else "Failed to get response") }
        | FetchResponse.networkError msg =>
            { messages := msgs ++ [⟨nowId, Role.assistant, errorApology⟩],
              input := "", isLoading := false, requested := true,
              authHeader := auth, payload := some formData,
              redirectedLogin := false,
              toast := some (msg.getD "Failed to get a response") }

end ChatDetailPage

/-- One stored turn of a conversation (`interface ChatHistoryItem`). -/
structure ChatHistoryItem where
  user_query : String
  chatbot_answer : String
  deriving DecidableEq

/-- One stored conversation as returned by `/get_chats` (`interface Chat`
of the dashboard layout; `interface ChatData` of the detail page is the
same minus `id` and `last_message`). -/
structure Chat where
  id : Option String
  project_name : String
  vector_id : String
  chat_history : List ChatHistoryItem
  timestamp : String
  last_message : Option String
  deriving DecidableEq

namespace ChatDetailPage

/-- The welcome message inserted when no stored history is shown. -/
def welcomeMessage (project : String) : Message :=
  ⟨"welcome", Role.assistant,
   s!"Welcome to the {project} project! Ask me anything about your documents."⟩

/-- The user message pushed for the history item at a given index. -/
def userMsgOf (p : Nat × ChatHistoryItem) : Message :=
  ⟨s!"user-{p.fst}", Role.user, p.snd.user_query⟩

/-- The assistant message pushed for the history item at a given index. -/
def assistantMsgOf (p : Nat × ChatHistoryItem) : Message :=
  ⟨s!"assistant-{p.fst}", Role.assistant, p.snd.chatbot_answer⟩

/-- The history replay of `fetchChatHistory`: each `chat_history` item, in
stored order, pushes a user message with its `user_query` and then an
assistant message with its `chatbot_answer`, ids derived from the index. -/
def convertMessages (history : List ChatHistoryItem) : List Message :=
  history.enum.flatMap fun p => [userMsgOf p, assistantMsgOf p]

/-- `fetchChatHistory` of the detail page, given the parsed `data.chats`
array of a successful `/get_chats` response: find the chat whose
`vector_id` matches the route id, replay its history, and fall back to the
welcome message when the chat is missing or its history is empty. -/
def fetchChatHistory (id project : String) (chats : List Chat) : List Message :=
  match chats.find? (fun c => c.vector_id == id) with
  | none => [welcomeMessage project]
  | some chatData =>
      let converted := convertMessages chatData.chat_history
      if converted.isEmpty then [welcomeMessage project] else converted

end ChatDetailPage

namespace DashboardLayout

/-- The chat-list normalisation of `fetchChats`: default the chat id from
`vector_id` (or a generated random id), and set `last_message` to
`chat_history[0].user_query`, which the source comments call the most
recent message, defaulting to "New conversation". -/
def normalizeChat (randId : String) (chat : Chat) : Chat :=
  let chatId :=
    if jsTruthy chat.id then chat.id.getD ""
    else if !chat.vector_id.isEmpty then chat.vector_id
    else randId
  let lastMessage :=
    match chat.chat_history with
    | [] => "New conversation"
    | item :: _ =>
        if item.user_query.isEmpty then "New conversation" else item.user_query
  { chat with id := some chatId, last_message := some lastMessage }

/-- The fabricated default chat of `fetchChats`: when the current pathname
contains a `chat/<project>` segment, a placeholder conversation for that
project is synthesised; otherwise nothing. -/
def defaultChatFromPath (path : String) (ts : String) : List Chat :=
  let pathParts := splitChar (Char.ofNat 47) path
  let projectIndex := pathParts.indexOf "chat"
  if projectIndex + 1 < pathParts.length then
    let currentProject := (pathParts.get? (projectIndex + 1)).getD ""
    [{ id := some "default", project_name := currentProject,
       vector_id := "default", chat_history := [], timestamp := ts,
       last_message := some "New conversation" }]
  else []

/-- Parsed body of a `/get_chats` response: an object with a `chats` array,
a bare array, or anything else. -/
inductive ChatsResponseData where
  | withChats : List Chat → ChatsResponseData
  | plainArray : List Chat → ChatsResponseData
  | other : ChatsResponseData
  deriving DecidableEq

/-- Outcome of the `/get_chats` fetch: ok with a parsed body, non-ok with a
status code, or a rejected fetch with an optional error message. -/
inductive ChatsFetchResponse where
  | ok : ChatsResponseData → ChatsFetchResponse
  | httpError : Nat → ChatsFetchResponse
  | networkError : Option String → ChatsFetchResponse
  deriving DecidableEq

/-- Everything observable from one run of the layout effect around
`fetchChats`. -/
structure FetchChatsResult where
  requested : Bool
  authHeader : Option String
  tokenRemoved : Bool
  redirectedLogin : Bool
  chats : List Chat
  error : Option String
  toast : Option String
  deriving DecidableEq

/-- `fetchChats` of `DashboardLayout` (app/dashboard/upload/page.tsx),
together with the token guard of the surrounding effect.  `randId` stands
for the generated fallback chat id, `ts` for `new Date().toISOString()`,
`path` for `window.location.pathname`. -/
def fetchChats (token : Option String) (resp : ChatsFetchResponse)
    (randId ts path : String) : FetchChatsResult :=
  match token with
  | none =>
      { requested := false, authHeader := none, tokenRemoved := false,
        redirectedLogin := true, chats := [], error := none, toast := none }
  | some t =>
      let auth := some ("Bearer " ++ t)
      match resp with
      | ChatsFetchResponse.ok data =>
          let chatsList :=
            match data with
            | ChatsResponseData.withChats cs => cs
            | ChatsResponseData.plainArray cs => cs
            | ChatsResponseData.other => []
          let normalized := chatsList.map (normalizeChat randId)
          let finalChats :=
            if normalized.isEmpty then defaultChatFromPath path ts else normalized
          { requested := true, authHeader := auth, tokenRemoved := false,
            redirectedLogin := false, chats := finalChats, error := none,
            toast := none }
      | ChatsFetchResponse.httpError status =>
          if status == 401 then
            { requested := true, authHeader := auth, tokenRemoved := true,
              redirectedLogin := true, chats := [], error := none, toast := none }
          else
            let msg := s!"Failed to fetch chats: {status}"
            { requested := true, authHeader := auth, tokenRemoved := false,
              redirectedLogin := false, chats := defaultChatFromPath path ts,
              error := some msg,
              toast := some s!"Failed to load chat history: {msg}" }
      | ChatsFetchResponse.networkError m =>
          let msg := m.getD "Unknown error"
          { requested := true, authHeader := auth, tokenRemoved := false,
            redirectedLogin := false, chats := defaultChatFromPath path ts,
            error := some msg,
            toast := some s!"Failed to load chat history: {msg}" }

end DashboardLayout

namespace UploadPage

/-- A file selected for upload; only the name is relevant to the payload
shape, the bytes travel opaquely. -/
structure UploadFile where
  name : String
  deriving DecidableEq

/-- A multipart form-data value: a string field or a file field. -/
inductive FormValue where
  | str : String → FormValue
  | file : UploadFile → FormValue
  deriving DecidableEq

/-- The form data built by the upload `handleSubmit`: the project name then
one `files_data` entry per selected file, in order. -/
def uploadPayload (projectName : String) (files : List UploadFile) :
    List (String × FormValue) :=
  ("project_name", FormValue.str projectName) ::
    files.map (fun f => ("files_data", FormValue.file f))

/-- Observable outcome of the upload `handleSubmit`: blocked by one of the
two validation toasts, redirected to /login for a missing token, or a
`/data-ingest` request with its payload. -/
inductive UploadAction where
  | blockedEmptyName
  | blockedNoFiles
  | redirectLogin
  | request : List (String × FormValue) → UploadAction
  deriving DecidableEq

/-- `handleSubmit` of `app/dashboard/upload/page.tsx` up to the issuing of
the `/data-ingest` request: validation guards first, then the token guard,
then the request with `uploadPayload`. -/
def handleSubmit (projectName : String) (files : List UploadFile)
    (token : Option String) : UploadAction :=
  if (jsTrim projectName).isEmpty then UploadAction.blockedEmptyName
  else if files.isEmpty then UploadAction.blockedNoFiles
  else
    match token with
    | none => UploadAction.redirectLogin
    | some _ => UploadAction.request (uploadPayload projectName files)

end UploadPage

namespace VectorStore

/-- Modelled from the spec: the backend Vector Store Adapter is not among
the frontend sources; a chunk record as in spec section 3 — generated id
and text content (vector and metadata travel opaquely alongside). -/
structure Chunk where
  id : Nat
  text : String
  deriving DecidableEq

/-- Modelled from the spec: the vector store as the per-project collections
of spec section 4.4 — each ingested record is tagged with the project name
of the collection it was upserted into. -/
abbrev Store := List (String × Chunk)

/-- Modelled from the spec: `upsert` into a project collection (section
4.4) — the record lands in that project collection only. -/
def ingest (store : Store) (project : String) (c : Chunk) : Store :=
  (project, c) :: store

/-- Modelled from the spec: `search(collection_id, ...)` (section 4.4)
returns records of that project collection only. -/
def search (store : Store) (project : String) : List Chunk :=
  (store.filter (fun r => r.fst == project)).map Prod.snd

/-- A store built by a sequence of ingestions, starting from empty. -/
def buildStore (ops : List (String × Chunk)) : Store :=
  ops.foldr (fun op s => ingest s op.fst op.snd) []

end VectorStore

/-- Claim C9: a chat form submission whose input is empty or
whitespace-only returns without issuing any network request and leaves the
message list, the input field and the loading flag unchanged, on both chat
pages. -/
theorem C9_blank_input_is_noop (st : ChatState) (project id nowId : String)
    (token : Option String) (resp : FetchResponse)
    (h : (jsTrim st.input).isEmpty = true) :
    ChatPage.handleSubmit st project nowId token resp =
      { messages := st.messages, input := st.input, isLoading := st.isLoading,
        requested := false, authHeader := none, payload := none,
        redirectedLogin := false, toast := none } ∧
    ChatDetailPage.handleSubmit st project id nowId token resp =
      { messages := st.messages, input := st.input, isLoading := st.isLoading,
        requested := false, authHeader := none, payload := none,
        redirectedLogin := false, toast := none } := by
  constructor <;> simp [ChatPage.handleSubmit, ChatDetailPage.handleSubmit, h]

/-- Witness for C9 at a concrete whitespace-only state. -/
theorem C9_blank_input_is_noop_witness :
    ChatPage.handleSubmit ⟨[], "  ", true⟩ "demo" "1" (some "tok")
        (FetchResponse.networkError none) =
      { messages := [], input := "  ", isLoading := true, requested := false,
        authHeader := none, payload := none, redirectedLogin := false,
        toast := none } ∧
    ChatDetailPage.handleSubmit ⟨[], "  ", true⟩ "demo" "v1" "1" (some "tok")
        (FetchResponse.networkError none) =
      { messages := [], input := "  ", isLoading := true, requested := false,
        authHeader := none, payload := none, redirectedLogin := false,
        toast := none } :=
  C9_blank_input_is_noop ⟨[], "  ", true⟩ "demo" "v1" "1" (some "tok")
    (FetchResponse.networkError none) (by decide)

/-- Claim C10: `isApiReachable` is total (a Lean function on all inputs,
hence never throws); it returns false with no network request outside a
browser or when the hostname includes vercel.app, localhost or 127.0.0.1;
otherwise it issues the GET and returns true exactly when the ping
completed within the timeout with an ok status, false on any error, abort
or non-ok response. -/
theorem C10_isApiReachable_spec (env : Config.BrowserEnv)
    (outcome : Config.PingOutcome) :
    (env.isBrowser = false →
      Config.isApiReachable env outcome = ⟨false, false⟩) ∧
    ((strIncludes env.hostname "vercel.app" ||
      strIncludes env.hostname "localhost" ||
      strIncludes env.hostname "127.0.0.1") = true →
      Config.isApiReachable env outcome = ⟨false, false⟩) ∧
    (env.isBrowser = true → Config.isPreviewEnvironment env = false →
      (Config.isApiReachable env outcome).requested = true ∧
      ((Config.isApiReachable env outcome).result = true ↔
        outcome = Config.PingOutcome.ok)) := by
  obtain ⟨b, host⟩ := env
  refine ⟨?_, ?_, ?_⟩
  · intro hb
    subst hb
    simp [Config.isApiReachable]
  · intro hc
    cases b with
    | false => simp [Config.isApiReachable]
    | true =>
        simp only [Config.isApiReachable, Config.isPreviewEnvironment] at *
        simp [hc]
  · intro hb hp
    subst hb
    simp only [Config.isApiReachable, hp, Bool.not_true, Bool.false_eq_true,
      if_false, if_neg]
    cases outcome <;> simp

/-- Witness for C10: in a real browser on a production hostname the ping
result is returned as is; outside a browser the call is a no-request
false. -/
theorem C10_isApiReachable_spec_witness :
    ((Config.isApiReachable ⟨true, "example.com"⟩ Config.PingOutcome.ok).requested = true ∧
      ((Config.isApiReachable ⟨true, "example.com"⟩ Config.PingOutcome.ok).result = true ↔
        Config.PingOutcome.ok = Config.PingOutcome.ok)) ∧
    Config.isApiReachable ⟨false, "example.com"⟩ Config.PingOutcome.ok = ⟨false, false⟩ ∧
    Config.isApiReachable ⟨true, "myapp.vercel.app"⟩ Config.PingOutcome.ok = ⟨false, false⟩ :=
  ⟨(C10_isApiReachable_spec ⟨true, "example.com"⟩ Config.PingOutcome.ok).2.2 rfl (by decide),
   (C10_isApiReachable_spec ⟨false, "example.com"⟩ Config.PingOutcome.ok).1 rfl,
   (C10_isApiReachable_spec ⟨true, "myapp.vercel.app"⟩ Config.PingOutcome.ok).2.1 (by decide)⟩

/-- Claim C7: an upload request is issued only when the trimmed project
name is non-empty and at least one file is selected, and the issued payload
carries the project name string and one `files_data` entry for every
selected file. -/
theorem C7_upload_guard_and_payload (projectName : String)
    (files : List UploadPage.UploadFile) (token : Option String)
    (pay : List (String × UploadPage.FormValue))
    (h : UploadPage.handleSubmit projectName files token =
      UploadPage.UploadAction.request pay) :
    (jsTrim projectName).isEmpty = false ∧ files ≠ [] ∧
    pay = UploadPage.uploadPayload projectName files ∧
    ("project_name", UploadPage.FormValue.str projectName) ∈ pay ∧
    ∀ f ∈ files, ("files_data", UploadPage.FormValue.file f) ∈ pay := by
  unfold UploadPage.handleSubmit at h
  by_cases h1 : (jsTrim projectName).isEmpty
  · rw [if_pos h1] at h
    exact absurd h (by simp)
  · rw [if_neg h1] at h
    by_cases h2 : files.isEmpty
    · rw [if_pos h2] at h
      exact absurd h (by simp)
    · rw [if_neg h2] at h
      match token with
      | none => exact absurd h (by simp)
      | some t =>
          simp only [UploadPage.UploadAction.request.injEq] at h
          subst h
          refine ⟨by simpa using h1, by simpa using h2, rfl, ?_, ?_⟩
          · exact List.mem_cons_self _ _
          · intro f hf
            exact List.mem_cons_of_mem _ (List.mem_map_of_mem _ hf)

/-- Witness for C7 at a concrete project name, file list and token. -/
theorem C7_upload_guard_and_payload_witness :
    (jsTrim "My Project").isEmpty = false ∧
    [UploadPage.UploadFile.mk "a.pdf"] ≠ [] ∧
    UploadPage.uploadPayload "My Project" [UploadPage.UploadFile.mk "a.pdf"] =
      UploadPage.uploadPayload "My Project" [UploadPage.UploadFile.mk "a.pdf"] ∧
    ("project_name", UploadPage.FormValue.str "My Project") ∈
      UploadPage.uploadPayload "My Project" [UploadPage.UploadFile.mk "a.pdf"] ∧
    ∀ f ∈ [UploadPage.UploadFile.mk "a.pdf"],
      ("files_data", UploadPage.FormValue.file f) ∈
        UploadPage.uploadPayload "My Project" [UploadPage.UploadFile.mk "a.pdf"] :=
  C7_upload_guard_and_payload "My Project" [UploadPage.UploadFile.mk "a.pdf"]
    (some "tok") (UploadPage.uploadPayload "My Project" [UploadPage.UploadFile.mk "a.pdf"])
    (by decide)

/-- Claim C6: an issued chat query payload is exactly the free-text query
and the project name, with the conversation identifier (`vector_id`)
present exactly on the continuation page and absent on the
new-conversation page. -/
theorem C6_chat_payload_contract (st : ChatState) (project id nowId t : String)
    (resp : FetchResponse) (h : (jsTrim st.input).isEmpty = false) :
    (ChatPage.handleSubmit st project nowId (some t) resp).payload =
      some [("user_query", st.input), ("project_name", project)] ∧
    (ChatDetailPage.handleSubmit st project id nowId (some t) resp).payload =
      some [("user_query", st.input), ("project_name", project),
            ("vector_id", id)] := by
  cases resp <;>
    simp [ChatPage.handleSubmit, ChatDetailPage.handleSubmit, h]

/-- Witness for C6 at a concrete submission. -/
theorem C6_chat_payload_contract_witness :
    (ChatPage.handleSubmit ⟨[], "What is X?", false⟩ "demo" "1" (some "tok")
        (FetchResponse.ok (ChatResponse.str "hi"))).payload =
      some [("user_query", "What is X?"), ("project_name", "demo")] ∧
    (ChatDetailPage.handleSubmit ⟨[], "What is X?", false⟩ "demo" "v7" "1"
        (some "tok") (FetchResponse.ok (ChatResponse.str "hi"))).payload =
      some [("user_query", "What is X?"), ("project_name", "demo"),
            ("vector_id", "v7")] :=
  C6_chat_payload_contract ⟨[], "What is X?", false⟩ "demo" "v7" "1" "tok"
    (FetchResponse.ok (ChatResponse.str "hi")) (by decide)

/-- Claim C8: ambient re-authentication — a protected request attaches the
stored token as a Bearer Authorization header; a missing token causes a
redirect to login with no request sent (chat-list effect and chat submit);
a 401 response to the chat-list fetch removes the stored token and
redirects to login. -/
theorem C8_token_handling (st : ChatState) (project nowId t : String)
    (resp : FetchResponse) (respC : DashboardLayout.ChatsFetchResponse)
    (randId ts path : String) :
    (DashboardLayout.fetchChats none respC randId ts path).requested = false ∧
    (DashboardLayout.fetchChats none respC randId ts path).redirectedLogin = true ∧
    ((jsTrim st.input).isEmpty = false →
      (ChatPage.handleSubmit st project nowId none resp).requested = false ∧
      (ChatPage.handleSubmit st project nowId none resp).redirectedLogin = true) ∧
    (DashboardLayout.fetchChats (some t) respC randId ts path).requested = true ∧
    (DashboardLayout.fetchChats (some t) respC randId ts path).authHeader =
      some ("Bearer " ++ t) ∧
    ((jsTrim st.input).isEmpty = false →
      (ChatPage.handleSubmit st project nowId (some t) resp).authHeader =
        some ("Bearer " ++ t)) ∧
    (DashboardLayout.fetchChats (some t)
      (DashboardLayout.ChatsFetchResponse.httpError 401) randId ts path).tokenRemoved
        = true ∧
    (DashboardLayout.fetchChats (some t)
      (DashboardLayout.ChatsFetchResponse.httpError 401) randId ts path).redirectedLogin
        = true := by
  refine ⟨by simp [DashboardLayout.fetchChats], by simp [DashboardLayout.fetchChats],
    ?_, ?_, ?_, ?_, by simp [DashboardLayout.fetchChats], by simp [DashboardLayout.fetchChats]⟩
  · intro h
    constructor <;> simp [ChatPage.handleSubmit, h]
  · cases respC with
    | ok d => simp [DashboardLayout.fetchChats]
    | httpError s =>
        by_cases hs : s == 401 <;> simp [DashboardLayout.fetchChats, hs]
    | networkError m => simp [DashboardLayout.fetchChats]
  · cases respC with
    | ok d => simp [DashboardLayout.fetchChats]
    | httpError s =>
        by_cases hs : s == 401 <;> simp [DashboardLayout.fetchChats, hs]
    | networkError m => simp [DashboardLayout.fetchChats]
  · intro h
    cases resp <;> simp [ChatPage.handleSubmit, h]

/-- Witness for C8 at concrete values. -/
theorem C8_token_handling_witness :
    (DashboardLayout.fetchChats none
      (DashboardLayout.ChatsFetchResponse.httpError 500) "r" "ts" "/p").requested = false ∧
    (DashboardLayout.fetchChats none
      (DashboardLayout.ChatsFetchResponse.httpError 500) "r" "ts" "/p").redirectedLogin = true ∧
    (ChatPage.handleSubmit ⟨[], "q", false⟩ "demo" "1" none
      (FetchResponse.networkError none)).requested = false ∧
    (ChatPage.handleSubmit ⟨[], "q", false⟩ "demo" "1" none
      (FetchResponse.networkError none)).redirectedLogin = true ∧
    (DashboardLayout.fetchChats (some "tok")
      (DashboardLayout.ChatsFetchResponse.httpError 500) "r" "ts" "/p").requested = true ∧
    (DashboardLayout.fetchChats (some "tok")
      (DashboardLayout.ChatsFetchResponse.httpError 500) "r" "ts" "/p").authHeader =
        some ("Bearer " ++ "tok") ∧
    (ChatPage.handleSubmit ⟨[], "q", false⟩ "demo" "1" (some "tok")
      (FetchResponse.networkError none)).authHeader = some ("Bearer " ++ "tok") ∧
    (DashboardLayout.fetchChats (some "tok")
      (DashboardLayout.ChatsFetchResponse.httpError 401) "r" "ts" "/p").tokenRemoved = true ∧
    (DashboardLayout.fetchChats (some "tok")
      (DashboardLayout.ChatsFetchResponse.httpError 401) "r" "ts" "/p").redirectedLogin = true := by
  have H := C8_token_handling ⟨[], "q", false⟩ "demo" "1" "tok"
    (FetchResponse.networkError none)
    (DashboardLayout.ChatsFetchResponse.httpError 500) "r" "ts" "/p"
  exact ⟨H.1, H.2.1, (H.2.2.1 (by decide)).1, (H.2.2.1 (by decide)).2,
    H.2.2.2.1, H.2.2.2.2.1, H.2.2.2.2.2.1 (by decide),
    H.2.2.2.2.2.2.1, H.2.2.2.2.2.2.2⟩

/-- Counterexample to claim C1: on a successful response whose body carries
no recognizable answer text, `handleSubmit` appends the generic placeholder
string as an assistant answer and surfaces no error at all — directly
contradicting the claimed surfaced typed error. -/
theorem C1_counterexample :
    extractResponseText (ChatResponse.obj ⟨none, none, none, none⟩) =
      fallbackAnswer ∧
    (ChatPage.handleSubmit ⟨[], "What is X?", false⟩ "demo" "1" (some "tok")
        (FetchResponse.ok (ChatResponse.obj ⟨none, none, none, none⟩))).messages =
      [⟨"1", Role.user, "What is X?"⟩, ⟨"1", Role.assistant, fallbackAnswer⟩] ∧
    (ChatPage.handleSubmit ⟨[], "What is X?", false⟩ "demo" "1" (some "tok")
        (FetchResponse.ok (ChatResponse.obj ⟨none, none, none, none⟩))).toast =
      none := by
  refine ⟨by decide, by decide, by decide⟩

/-- Claim C1 as amended: when a successful chat response carries no truthy
answer field (and is not a bare string), `handleSubmit` silently presents
the fixed placeholder string as an assistant answer, with no error
surfaced, on both chat pages. -/
theorem C1_amended_placeholder_presented (st : ChatState)
    (project id nowId t : String) (o : ChatResponseObj)
    (hin : (jsTrim st.input).isEmpty = false)
    (h1 : jsTruthy o.chatbot_answer = false)
    (h2 : jsTruthy o.response = false)
    (h3 : jsTruthy o.answer = false)
    (h4 : jsTruthy o.text = false) :
    (ChatPage.handleSubmit st project nowId (some t)
        (FetchResponse.ok (ChatResponse.obj o))).messages =
      st.messages ++ [⟨nowId, Role.user, st.input⟩,
                      ⟨nowId, Role.assistant, fallbackAnswer⟩] ∧
    (ChatPage.handleSubmit st project nowId (some t)
        (FetchResponse.ok (ChatResponse.obj o))).toast = none ∧
    (ChatDetailPage.handleSubmit st project id nowId (some t)
        (FetchResponse.ok (ChatResponse.obj o))).messages =
      st.messages ++ [⟨nowId, Role.user, st.input⟩,
                      ⟨nowId, Role.assistant, fallbackAnswer⟩] ∧
    (ChatDetailPage.handleSubmit st project id nowId (some t)
        (FetchResponse.ok (ChatResponse.obj o))).toast = none := by
  refine ⟨?_, ?_, ?_, ?_⟩ <;>
    simp [ChatPage.handleSubmit, ChatDetailPage.handleSubmit,
      extractResponseText, hin, h1, h2, h3, h4]

/-- Witness for the amended C1 at a concrete empty response object. -/
theorem C1_amended_placeholder_presented_witness :
    (ChatPage.handleSubmit ⟨[], "What is X?", false⟩ "demo" "v1" (some "tok")
        (FetchResponse.ok (ChatResponse.obj ⟨none, none, none, none⟩))).messages =
      [] ++ [⟨"v1", Role.user, "What is X?"⟩,
             ⟨"v1", Role.assistant, fallbackAnswer⟩] ∧
    (ChatPage.handleSubmit ⟨[], "What is X?", false⟩ "demo" "v1" (some "tok")
        (FetchResponse.ok (ChatResponse.obj ⟨none, none, none, none⟩))).toast = none ∧
    (ChatDetailPage.handleSubmit ⟨[], "What is X?", false⟩ "demo" "c3" "v1"
        (some "tok")
        (FetchResponse.ok (ChatResponse.obj ⟨none, none, none, none⟩))).messages =
      [] ++ [⟨"v1", Role.user, "What is X?"⟩,
             ⟨"v1", Role.assistant, fallbackAnswer⟩] ∧
    (ChatDetailPage.handleSubmit ⟨[], "What is X?", false⟩ "demo" "c3" "v1"
        (some "tok")
        (FetchResponse.ok (ChatResponse.obj ⟨none, none, none, none⟩))).toast =
      none :=
  C1_amended_placeholder_presented ⟨[], "What is X?", false⟩ "demo" "c3" "v1"
    "tok" ⟨none, none, none, none⟩ (by decide) (by decide) (by decide)
    (by decide) (by decide)

/-- Counterexample to claim C2: responses whose answer text sits under
different field names are all resolved by trying the candidate names in
turn, instead of one fixed field with rejection on drift — a body lacking
`chatbot_answer` but carrying `response` or `text` is still accepted and
rendered. -/
theorem C2_counterexample :
    extractResponseText (ChatResponse.obj ⟨some "A", none, none, none⟩) = "A" ∧
    extractResponseText (ChatResponse.obj ⟨none, some "B", none, none⟩) = "B" ∧
    extractResponseText (ChatResponse.obj ⟨none, none, some "C", none⟩) = "C" ∧
    extractResponseText (ChatResponse.obj ⟨none, none, none, some "D"⟩) = "D" ∧
    extractResponseText (ChatResponse.str "E") = "E" ∧
    (ChatPage.handleSubmit ⟨[], "q", false⟩ "p" "1" (some "t")
        (FetchResponse.ok (ChatResponse.obj ⟨none, some "B", none, none⟩))).messages =
      [⟨"1", Role.user, "q"⟩, ⟨"1", Role.assistant, "B"⟩] ∧
    (ChatPage.handleSubmit ⟨[], "q", false⟩ "p" "1" (some "t")
        (FetchResponse.ok (ChatResponse.obj ⟨none, some "B", none, none⟩))).toast =
      none := by
  refine ⟨by decide, by decide, by decide, by decide, by decide, by decide, by decide⟩

/-- Claim C2 as amended: the answer text is resolved by probing
`chatbot_answer`, `response`, `answer`, `text` in order, then the whole
body when it is a string, and otherwise replaced by the fixed placeholder;
no response shape is ever rejected. -/
theorem C2_amended_field_sniffing (o : ChatResponseObj) (s : String) :
    (jsTruthy o.chatbot_answer = true →
      extractResponseText (ChatResponse.obj o) = o.chatbot_answer.getD "") ∧
    (jsTruthy o.chatbot_answer = false → jsTruthy o.response = true →
      extractResponseText (ChatResponse.obj o) = o.response.getD "") ∧
    (jsTruthy o.chatbot_answer = false → jsTruthy o.response = false →
      jsTruthy o.answer = true →
      extractResponseText (ChatResponse.obj o) = o.answer.getD "") ∧
    (jsTruthy o.chatbot_answer = false → jsTruthy o.response = false →
      jsTruthy o.answer = false → jsTruthy o.text = true →
      extractResponseText (ChatResponse.obj o) = o.text.getD "") ∧
    (jsTruthy o.chatbot_answer = false → jsTruthy o.response = false →
      jsTruthy o.answer = false → jsTruthy o.text = false →
      extractResponseText (ChatResponse.obj o) = fallbackAnswer) ∧
    extractResponseText (ChatResponse.str s) = s := by
  refine ⟨?_, ?_, ?_, ?_, ?_, rfl⟩ <;>
    · intros
      simp [extractResponseText, *]

/-- Witness for the amended C2 at concrete response bodies, discharging
each guard. -/
theorem C2_amended_field_sniffing_witness :
    extractResponseText (ChatResponse.obj ⟨none, some "B", none, none⟩) =
      (some "B").getD "" ∧
    extractResponseText (ChatResponse.str "E") = "E" := by
  have H := C2_amended_field_sniffing ⟨none, some "B", none, none⟩ "E"
  exact ⟨H.2.1 (by decide) (by decide), H.2.2.2.2.2⟩

/-- Counterexample to claim C4: two different chat failures (a rejected
fetch and a non-ok response without detail) both surface the identical
generic apology as an assistant message, and a failed chat-list request
fabricates a placeholder conversation — the caller does not receive a
distinguishable error kind. -/
theorem C4_counterexample :
    (ChatPage.handleSubmit ⟨[], "q", false⟩ "p" "1" (some "t")
        (FetchResponse.networkError none)).messages =
      [⟨"1", Role.user, "q"⟩, ⟨"1", Role.assistant, errorApology⟩] ∧
    (ChatPage.handleSubmit ⟨[], "q", false⟩ "p" "1" (some "t")
        (FetchResponse.httpError none)).messages =
      [⟨"1", Role.user, "q"⟩, ⟨"1", Role.assistant, errorApology⟩] ∧
    (DashboardLayout.fetchChats (some "t")
        (DashboardLayout.ChatsFetchResponse.networkError none)
        "r" "ts" "/dashboard/chat/demo").chats =
      [{ id := some "default", project_name := "demo", vector_id := "default",
         chat_history := [], timestamp := "ts",
         last_message := some "New conversation" }] := by
  refine ⟨by decide, by decide, by decide⟩

/-- Claim C4 as amended: on any failed chat request the code appends the
same generic apology assistant message whatever the error kind (the toast
carries the server detail only when present); on a failed chat-list
request the code records the error but substitutes the fabricated default
chat list derived from the current path. -/
theorem C4_amended_generic_error_surface (st : ChatState)
    (project nowId t randId ts path : String) (d m : Option String)
    (status : Nat) (hin : (jsTrim st.input).isEmpty = false)
    (hs : status ≠ 401) :
    (ChatPage.handleSubmit st project nowId (some t)
        (FetchResponse.httpError d)).messages =
      st.messages ++ [⟨nowId, Role.user, st.input⟩,
                      ⟨nowId, Role.assistant, errorApology⟩] ∧
    (ChatPage.handleSubmit st project nowId (some t)
        (FetchResponse.networkError m)).messages =
      st.messages ++ [⟨nowId, Role.user, st.input⟩,
                      ⟨nowId, Role.assistant, errorApology⟩] ∧
    (DashboardLayout.fetchChats (some t)
        (DashboardLayout.ChatsFetchResponse.httpError status)
        randId ts path).chats = DashboardLayout.defaultChatFromPath path ts ∧
    (DashboardLayout.fetchChats (some t)
        (DashboardLayout.ChatsFetchResponse.httpError status)
        randId ts path).error = some s!"Failed to fetch chats: {status}" ∧
    (DashboardLayout.fetchChats (some t)
        (DashboardLayout.ChatsFetchResponse.networkError m)
        randId ts path).chats = DashboardLayout.defaultChatFromPath path ts := by
  have hs2 : (status == 401) = false := by simpa using hs
  refine ⟨?_, ?_, ?_, ?_, ?_⟩ <;>
    simp [ChatPage.handleSubmit, DashboardLayout.fetchChats, hin, hs2]

/-- Witness for the amended C4 at a concrete failing request. -/
theorem C4_amended_generic_error_surface_witness :
    (ChatPage.handleSubmit ⟨[], "q", false⟩ "p" "1" (some "t")
        (FetchResponse.httpError none)).messages =
      [] ++ [⟨"1", Role.user, "q"⟩, ⟨"1", Role.assistant, errorApology⟩] ∧
    (ChatPage.handleSubmit ⟨[], "q", false⟩ "p" "1" (some "t")
        (FetchResponse.networkError (some "boom"))).messages =
      [] ++ [⟨"1", Role.user, "q"⟩, ⟨"1", Role.assistant, errorApology⟩] ∧
    (DashboardLayout.fetchChats (some "t")
        (DashboardLayout.ChatsFetchResponse.httpError 500)
        "r" "ts" "/dashboard/chat/demo").chats =
      DashboardLayout.defaultChatFromPath "/dashboard/chat/demo" "ts" ∧
    (DashboardLayout.fetchChats (some "t")
        (DashboardLayout.ChatsFetchResponse.httpError 500)
        "r" "ts" "/dashboard/chat/demo").error =
      some s!"Failed to fetch chats: {500}" ∧
    (DashboardLayout.fetchChats (some "t")
        (DashboardLayout.ChatsFetchResponse.networkError (some "boom"))
        "r" "ts" "/dashboard/chat/demo").chats =
      DashboardLayout.defaultChatFromPath "/dashboard/chat/demo" "ts" :=
  C4_amended_generic_error_surface ⟨[], "q", false⟩ "p" "1" "t" "r" "ts"
    "/dashboard/chat/demo" none (some "boom") 500 (by decide) (by decide)

/-- Index computation for the enumerated two-message replay blocks,
generalised over the starting index of the enumeration. -/
theorem convert_getElem_aux (h : List ChatHistoryItem) :
    ∀ n i : Nat,
      (((h.enumFrom n).flatMap fun p =>
          [ChatDetailPage.userMsgOf p, ChatDetailPage.assistantMsgOf p])[2*i]? =
        (h[i]?).map fun item => ChatDetailPage.userMsgOf (n + i, item)) ∧
      (((h.enumFrom n).flatMap fun p =>
          [ChatDetailPage.userMsgOf p, ChatDetailPage.assistantMsgOf p])[2*i+1]? =
        (h[i]?).map fun item => ChatDetailPage.assistantMsgOf (n + i, item)) := by
  induction h with
  | nil => intro n i; simp
  | cons x xs ih =>
      intro n i
      have hflat : (((x :: xs).enumFrom n).flatMap fun p =>
          [ChatDetailPage.userMsgOf p, ChatDetailPage.assistantMsgOf p]) =
          ChatDetailPage.userMsgOf (n, x) :: ChatDetailPage.assistantMsgOf (n, x) ::
            ((xs.enumFrom (n+1)).flatMap fun p =>
              [ChatDetailPage.userMsgOf p, ChatDetailPage.assistantMsgOf p]) := by
        simp [List.enumFrom]
      cases i with
      | zero => simp [hflat]
      | succ j =>
          have H := ih (n+1) j
          have e1 : 2 * (j+1) = ((2*j) + 1) + 1 := by omega
          have e2 : 2 * (j+1) + 1 = (((2*j) + 1) + 1) + 1 := by omega
          have e3 : n + (j+1) = (n+1) + j := by omega
          constructor
          · rw [hflat, e1, List.getElem?_cons_succ, List.getElem?_cons_succ,
              List.getElem?_cons_succ, e3]
            exact H.1
          · rw [hflat, e2, List.getElem?_cons_succ, List.getElem?_cons_succ,
              List.getElem?_cons_succ, e3]
            exact H.2

/-- Length of the enumerated two-message replay blocks. -/
theorem convert_length_aux (h : List ChatHistoryItem) :
    ∀ n : Nat, ((h.enumFrom n).flatMap fun p =>
        [ChatDetailPage.userMsgOf p, ChatDetailPage.assistantMsgOf p]).length =
      2 * h.length := by
  induction h with
  | nil => intro n; simp
  | cons x xs ih =>
      intro n
      simp only [List.enumFrom, List.flatMap_cons, List.length_append,
        List.length_cons, List.length_nil, ih (n+1)]
      omega

/-- Counterexample to claim C5: the replay renders the stored turns in
stored order, so the most recent turn under that ordering is the last pair
(q1, a1); yet the sidebar preview shows `chat_history[0].user_query`,
which is the first stored turn q0 — the preview is not of the most recent
turn under the same ordering. -/
theorem C5_counterexample :
    ChatDetailPage.convertMessages [⟨"q0", "a0"⟩, ⟨"q1", "a1"⟩] =
      [⟨"user-0", Role.user, "q0"⟩, ⟨"assistant-0", Role.assistant, "a0"⟩,
       ⟨"user-1", Role.user, "q1"⟩, ⟨"assistant-1", Role.assistant, "a1"⟩] ∧
    (DashboardLayout.normalizeChat "r"
        ⟨none, "p", "v", [⟨"q0", "a0"⟩, ⟨"q1", "a1"⟩], "ts", none⟩).last_message =
      some "q0" ∧
    ("q0" : String) ≠ "q1" := by
  refine ⟨by decide, by decide, by decide⟩

/-- Claim C5 as amended: the replay is order-preserving — message 2i is the
user message of history item i and message 2i+1 its assistant answer, with
2·n messages in total — while the sidebar preview always shows the FIRST
stored item of `chat_history` (defaulting on emptiness), which under
stored-order-equals-creation-order is the oldest turn, not the most
recent one. -/
theorem C5_amended_replay_and_preview (h : List ChatHistoryItem) (i : Nat)
    (c : Chat) (item0 : ChatHistoryItem) (rest : List ChatHistoryItem)
    (randId : String) (hc : c.chat_history = item0 :: rest) :
    (ChatDetailPage.convertMessages h).length = 2 * h.length ∧
    (ChatDetailPage.convertMessages h)[2*i]? =
      (h[i]?).map (fun item => ⟨s!"user-{i}", Role.user, item.user_query⟩) ∧
    (ChatDetailPage.convertMessages h)[2*i+1]? =
      (h[i]?).map (fun item =>
        ⟨s!"assistant-{i}", Role.assistant, item.chatbot_answer⟩) ∧
    (DashboardLayout.normalizeChat randId c).last_message =
      some (if item0.user_query.isEmpty then "New conversation"
            else item0.user_query) := by
  have hlen := convert_length_aux h 0
  have hidx := convert_getElem_aux h 0 i
  refine ⟨?_, ?_, ?_, ?_⟩
  · simpa [ChatDetailPage.convertMessages, List.enum] using hlen
  · simpa [ChatDetailPage.convertMessages, List.enum,
      ChatDetailPage.userMsgOf] using hidx.1
  · simpa [ChatDetailPage.convertMessages, List.enum,
      ChatDetailPage.assistantMsgOf] using hidx.2
  · simp [DashboardLayout.normalizeChat, hc]

/-- Witness for the amended C5 at a concrete two-turn history. -/
theorem C5_amended_replay_and_preview_witness :
    (ChatDetailPage.convertMessages [⟨"q0", "a0"⟩, ⟨"q1", "a1"⟩]).length =
      2 * ([⟨"q0", "a0"⟩, ⟨"q1", "a1"⟩] : List ChatHistoryItem).length ∧
    (ChatDetailPage.convertMessages [⟨"q0", "a0"⟩, ⟨"q1", "a1"⟩])[2*1]? =
      ((([⟨"q0", "a0"⟩, ⟨"q1", "a1"⟩] : List ChatHistoryItem))[1]?).map
        (fun item => ⟨s!"user-{1}", Role.user, item.user_query⟩) ∧
    (ChatDetailPage.convertMessages [⟨"q0", "a0"⟩, ⟨"q1", "a1"⟩])[2*1+1]? =
      ((([⟨"q0", "a0"⟩, ⟨"q1", "a1"⟩] : List ChatHistoryItem))[1]?).map
        (fun item => ⟨s!"assistant-{1}", Role.assistant, item.chatbot_answer⟩) ∧
    (DashboardLayout.normalizeChat "r"
        ⟨none, "p", "v", [⟨"q0", "a0"⟩, ⟨"q1", "a1"⟩], "ts", none⟩).last_message =
      some (if ("q0" : String).isEmpty then "New conversation" else "q0") :=
  C5_amended_replay_and_preview [⟨"q0", "a0"⟩, ⟨"q1", "a1"⟩] 1
    ⟨none, "p", "v", [⟨"q0", "a0"⟩, ⟨"q1", "a1"⟩], "ts", none⟩
    ⟨"q0", "a0"⟩ [⟨"q1", "a1"⟩] "r" rfl

/-- A store built by folding `ingest` over the operation list is the list
itself. -/
theorem buildStore_eq_ops (ops : List (String × VectorStore.Chunk)) :
    VectorStore.buildStore ops = ops := by
  induction ops with
  | nil => rfl
  | cons op rest ih =>
      show VectorStore.ingest (VectorStore.buildStore rest) op.1 op.2 = op :: rest
      unfold VectorStore.ingest
      rw [ih]

/-- Membership in a search result characterised: a chunk is returned for a
project exactly when it was ingested into that project. -/
theorem mem_search_iff (s : VectorStore.Store) (p : String)
    (c : VectorStore.Chunk) :
    c ∈ VectorStore.search s p ↔ (p, c) ∈ s := by
  simp only [VectorStore.search, List.mem_map, List.mem_filter, beq_iff_eq]
  constructor
  · rintro ⟨⟨q, c2⟩, ⟨hmem, hq⟩, hc⟩
    cases hq
    cases hc
    exact hmem
  · intro hmem
    exact ⟨(p, c), ⟨hmem, rfl⟩, rfl⟩

/-- Claim C3 (spec-modelled backend): with chunk ids unique across the
ingestion history, a chunk ingested into project A is never returned by a
search against a different project B, and each ingested chunk is returned
by the search of exactly one project. -/
theorem C3_project_isolation (ops : List (String × VectorStore.Chunk))
    (A B : String) (c : VectorStore.Chunk)
    (hids : (ops.map fun r => r.snd.id).Nodup)
    (hA : (A, c) ∈ ops) (hAB : A ≠ B) :
    c ∉ VectorStore.search (VectorStore.buildStore ops) B ∧
    ∃! P : String, c ∈ VectorStore.search (VectorStore.buildStore ops) P := by
  have hinj := List.inj_on_of_nodup_map hids
  have key : ∀ Q : String, (Q, c) ∈ ops → Q = A := by
    intro Q hQ
    have := hinj hQ hA rfl
    exact congrArg Prod.fst this
  constructor
  · intro hmem
    rw [buildStore_eq_ops, mem_search_iff] at hmem
    exact hAB ((key B hmem).symm)
  · have hmem : c ∈ VectorStore.search (VectorStore.buildStore ops) A := by
      rw [buildStore_eq_ops, mem_search_iff]
      exact hA
    refine ⟨A, hmem, ?_⟩
    intro P hP
    rw [buildStore_eq_ops, mem_search_iff] at hP
    exact key P hP

/-- Witness for C3 at a concrete two-project store. -/
theorem C3_project_isolation_witness :
    VectorStore.Chunk.mk 0 "x" ∉
      VectorStore.search
        (VectorStore.buildStore
          [("A", VectorStore.Chunk.mk 0 "x"), ("B", VectorStore.Chunk.mk 1 "y")])
        "B" ∧
    ∃! P : String,
      VectorStore.Chunk.mk 0 "x" ∈
        VectorStore.search
          (VectorStore.buildStore
            [("A", VectorStore.Chunk.mk 0 "x"), ("B", VectorStore.Chunk.mk 1 "y")])
          P :=
  C3_project_isolation
    [("A", VectorStore.Chunk.mk 0 "x"), ("B", VectorStore.Chunk.mk 1 "y")]
    "A" "B" (VectorStore.Chunk.mk 0 "x") (by decide) (by decide) (by decide)
